import Mathlib

/-!
Verification of the AI Reply Generator content script (haard18/extension).

The definitions below are a shallow embedding of the content script
(the feature-complete revision shipped alongside DEBUG.md): platform
detection, post-text extraction, the scan engine that attaches one
control per post, the per-control click-handler state machine, the
generation client, the reply-box injection writer, the navigation
handler and the mutation debounce.  Theorems at the end of the file
settle the frozen specification claims against these definitions.
-/

/-! ## String helpers (JS String.prototype.includes) -/

/-- Substring test on character lists: `need` occurs contiguously in `hay`. -/
def listContainsSub (need : List Char) : List Char → Bool
  | [] => need.isEmpty
  | c :: t => decide (need <+: (c :: t)) || listContainsSub need t

/-- JS `hay.includes(need)`. -/
def strContains (hay need : String) : Bool :=
  listContainsSub need.data hay.data

/-- JS whitespace for `String.prototype.trim`. -/
def isWsChar (c : Char) : Bool :=
  c == ' ' || c == '\t' || c == '\n' || c == '\r'

/-- JS `s.trim()`. -/
def jsTrim (s : String) : String :=
  ⟨((s.data.dropWhile isWsChar).reverse.dropWhile isWsChar).reverse⟩

/-- Split a character list at spaces (token list of a class attribute). -/
def splitTok : List Char → List (List Char)
  | [] => [[]]
  | c :: t =>
    let r := splitTok t
    if c == ' ' then [] :: r
    else (c :: r.headD []) :: r.tail

/-! ## Platform Detector

`detectPlatform` from the content script: classifies the page by
hostname substrings; unknown hosts yield "unknown". -/

def detectPlatform (hostname : String) : String :=
  if strContains hostname "linkedin" then "linkedin"
  else if strContains hostname "x.com" || strContains hostname "twitter.com" then "x"
  else "unknown"

/-! ## DOM element model

A minimal document-tree model carrying exactly the data the content
script queries: tag name, the class attribute string, other attributes,
and the element text.  `innerText` aggregates the subtree text. -/

mutual
inductive Elem where
  | mk (tag : String) (className : String) (attrs : List (String × String))
       (ownText : String) (children : ElemList)
inductive ElemList where
  | nil
  | cons (e : Elem) (rest : ElemList)
end

def Elem.tag : Elem → String
  | .mk t _ _ _ _ => t

def Elem.className : Elem → String
  | .mk _ c _ _ _ => c

def Elem.attrs : Elem → List (String × String)
  | .mk _ _ a _ _ => a

def Elem.ownText : Elem → String
  | .mk _ _ _ t _ => t

def Elem.children : Elem → ElemList
  | .mk _ _ _ _ cs => cs

mutual
/-- Aggregated visible text of an element subtree (JS `innerText`). -/
def Elem.innerText : Elem → String
  | .mk _ _ _ t cs => t ++ innerTextList cs

def innerTextList : ElemList → String
  | .nil => ""
  | .cons c cs => Elem.innerText c ++ innerTextList cs
end

/-- Attribute with an exact value: CSS `[k='v']`. -/
def Elem.hasAttr (e : Elem) (k v : String) : Bool :=
  e.attrs.contains (k, v)

/-- Attribute present with any value: CSS `[k]`. -/
def Elem.hasAttrKey (e : Elem) (k : String) : Bool :=
  e.attrs.any (fun kv => kv.1 == k)

/-- Class-token membership: CSS `.tok`. -/
def Elem.hasClassTok (e : Elem) (tok : String) : Bool :=
  (splitTok e.className.data).contains tok.data

/-- The concrete CSS selectors the content script uses inside
`extractPostText`, as an enumeration (one constructor per selector). -/
inductive Sel where
  /-- LinkedIn: `[data-test-id='post-content'] span` (descendant span). -/
  | postContentSpan
  /-- LinkedIn: `.feed-shared-update-v2__description`. -/
  | feedSharedDesc
  /-- LinkedIn: `.feed-item-text`. -/
  | feedItemText
  /-- LinkedIn: `[class*='feed']` (substring of the class attribute). -/
  | classContainsFeed
  /-- X: `article div[lang]` (descendant div with a lang attribute). -/
  | articleDivLang
  /-- X: `[data-testid='tweetText']`. -/
  | tweetText
  /-- X: `article`. -/
  | articleTag
deriving DecidableEq, Repr

/-- Whether element `e`, whose ancestor chain (inner to outer) is
`ancs`, matches selector `s`. -/
def selMatches (ancs : List Elem) (e : Elem) : Sel → Bool
  | .postContentSpan =>
      e.tag == "span" && ancs.any (fun a => a.hasAttr "data-test-id" "post-content")
  | .feedSharedDesc => e.hasClassTok "feed-shared-update-v2__description"
  | .feedItemText => e.hasClassTok "feed-item-text"
  | .classContainsFeed => strContains e.className "feed"
  | .articleDivLang =>
      e.tag == "div" && e.hasAttrKey "lang" && ancs.any (fun a => a.tag == "article")
  | .tweetText => e.hasAttr "data-testid" "tweetText"
  | .articleTag => e.tag == "article"

mutual
/-- Document-order (preorder) listing of an element and its descendants,
each paired with its ancestor chain (inner to outer). -/
def preorderWithAnc (ancs : List Elem) : Elem → List (List Elem × Elem)
  | .mk t c a tx cs =>
      (ancs, Elem.mk t c a tx cs) :: preorderListWithAnc (Elem.mk t c a tx cs :: ancs) cs

def preorderListWithAnc (ancs : List Elem) : ElemList → List (List Elem × Elem)
  | .nil => []
  | .cons c rest => preorderWithAnc ancs c ++ preorderListWithAnc ancs rest
end

/-- JS `root.querySelector("s1, s2, ...")`: the first descendant of
`root`, in document order, matching any selector of the list. -/
def querySelectorAny (root : Elem) (sels : List Sel) : Option Elem :=
  ((preorderListWithAnc [root] root.children).find?
      (fun p => sels.any (selMatches p.1 p.2))).map (·.2)

/-! ## Content Extractor (`extractPostText`) -/

/-- Selector list of the LinkedIn branch of `extractPostText`. -/
def liExtractSels : List Sel :=
  [.postContentSpan, .feedSharedDesc, .feedItemText, .classContainsFeed]

/-- Primary selector list of the X branch of `extractPostText`. -/
def xExtractSels : List Sel := [.articleDivLang, .tweetText]

/-- The function `extractPostText(postElement)`, with the platform passed explicitly
(the script reads it from the location).  Absent element gives "";
a branch's first query, when it matches, wins even with empty text;
the LinkedIn fallback is the whole element, the X fallback is the
first descendant `article`, else "". -/
def extractPostText (platform : String) (postElement : Option Elem) : String :=
  match postElement with
  | none => ""
  | some post =>
    if platform == "linkedin" then
      match querySelectorAny post liExtractSels with
      | some t => t.innerText
      | none => post.innerText
    else if platform == "x" then
      match querySelectorAny post xExtractSels with
      | some t => t.innerText
      | none =>
        match querySelectorAny post [.articleTag] with
        | some t => t.innerText
        | none => ""
    else ""

/-! ## Generation Client (`generateReply`)

The script reads `clerkToken`, `replyTone`, `enableEmojis` from
`chrome.storage.local`, checks token truthiness, picks the endpoint by
platform, defaults the tone by platform and the emoji flag to true, and
issues one authenticated POST.  Non-2xx statuses are classified by the
three-way check on `response.status`.  The environment (storage result
and HTTP response) is passed in explicitly. -/

/-- Result of the `chrome.storage.local.get` callback. -/
structure StorageResult where
  clerkToken : Option String
  replyTone : Option String
  enableEmojis : Option Bool
deriving DecidableEq, Repr

/-- How the storage read itself behaves: the `chrome.storage.local`
interface may be missing, the read may report a runtime error, or it
yields a result. -/
inductive StorageAccess where
  | unavailable
  | readError (msg : String)
  | ok (r : StorageResult)
deriving DecidableEq, Repr

/-- Usage statistics in a successful response body. -/
structure Usage where
  daily_used : Nat
  daily_goal : Nat
  weekly_used : Nat
  weekly_goal : Nat
deriving DecidableEq, Repr

/-- The HTTP response the backend returns for the single fetch. -/
structure HttpResponse where
  status : Nat
  statusText : String
  reply : String
  usage : Option Usage
deriving DecidableEq, Repr

/-- JS `response.ok`: status in the 2xx range. -/
def respOk (status : Nat) : Bool :=
  200 ≤ status && status < 300

/-- Successful result of `generateReply` (parsed JSON body). -/
structure GenResult where
  reply : String
  usage : Option Usage
deriving DecidableEq, Repr

/-- The distinct throw sites of `generateReply`, each carrying the
message thrown there. -/
inductive GenError where
  /-- `chrome.storage.local` missing. -/
  | configError (msg : String)
  /-- storage read reported `chrome.runtime.lastError`. -/
  | storageReadError (msg : String)
  /-- falsy `clerkToken`. -/
  | authMissing (msg : String)
  /-- status 401. -/
  | authError (msg : String)
  /-- status 402. -/
  | quotaError (msg : String)
  /-- any other non-ok status. -/
  | transportError (msg : String)
  /-- thrown by the click handler when no text was extracted. -/
  | usageError (msg : String)
deriving DecidableEq, Repr

/-- Outcome of `generateReply`: parsed body or thrown error. -/
inductive GenReplyResult where
  | ok (r : GenResult)
  | err (e : GenError)
deriving DecidableEq, Repr

/-- One outgoing request: endpoint, bearer token, and JSON payload
`{text, tone, emojiBool}`. -/
structure FetchCall where
  endpoint : String
  bearer : String
  text : String
  tone : String
  emojiBool : Bool
deriving DecidableEq, Repr

def storageUnavailableMsg : String :=
  "Chrome storage API not available. Please reload the page and try again."

def tokenMissingMsg : String :=
  "Authentication token not found. Please go to the dashboard and click \"Send Token to Extension\" first."

def authFailedMsg : String :=
  "Authentication failed. Your token may have expired. Please send a new token from the dashboard."

def quotaMsg : String :=
  "Daily limit reached. Please upgrade your plan."

def apiErrorMsg (status : Nat) (statusText : String) : String :=
  "API error: " ++ toString status ++ " " ++ statusText

def extractFailMsg : String :=
  "Could not extract post text."

def twitterEndpoint : String :=
  "https://replier.elcarainternal.lol/generate/twitter"

def linkedinEndpoint : String :=
  "https://replier.elcarainternal.lol/generate/linkedin"

/-- JS `replyTone || (platform === "x" ? "funny" : "value")`: an absent
or empty stored tone is falsy and falls back to the platform default. -/
def toneOf (replyTone : Option String) (platform : String) : String :=
  let dflt := if platform == "x" then "funny" else "value"
  match replyTone with
  | none => dflt
  | some s => if s == "" then dflt else s

/-- JS `enableEmojis !== undefined ? enableEmojis : true`. -/
def emojiOf (enableEmojis : Option Bool) : Bool :=
  match enableEmojis with
  | none => true
  | some b => b

/-- The function `generateReply(postText, platform)`.  Returns the outcome together
with the list of fetches performed (empty when the function throws
before reaching the network). -/
def generateReply (store : StorageAccess) (resp : HttpResponse)
    (postText : String) (platform : String) : GenReplyResult × List FetchCall :=
  match store with
  | .unavailable => (.err (.configError storageUnavailableMsg), [])
  | .readError m => (.err (.storageReadError m), [])
  | .ok r =>
    match r.clerkToken with
    | none => (.err (.authMissing tokenMissingMsg), [])
    | some tok =>
      if tok == "" then (.err (.authMissing tokenMissingMsg), [])
      else
        let endpoint := if platform == "x" then twitterEndpoint else linkedinEndpoint
        let tone := toneOf r.replyTone platform
        let includeEmojis := emojiOf r.enableEmojis
        let call : FetchCall :=
          { endpoint := endpoint, bearer := tok, text := postText,
            tone := tone, emojiBool := includeEmojis }
        if respOk resp.status then
          (.ok { reply := resp.reply, usage := resp.usage }, [call])
        else if resp.status == 401 then
          (.err (.authError authFailedMsg), [call])
        else if resp.status == 402 then
          (.err (.quotaError quotaMsg), [call])
        else
          (.err (.transportError (apiErrorMsg resp.status resp.statusText)), [call])

/-! ## Injection Writer (`fillReplyBox`)

The LinkedIn branch looks for an editable textbox inside the post, then
document-wide; found: focus + direct text assignment + input/change
events; not found: a blocking alert.  The X branch looks for the
composer, pastes synthetically, and falls back to per-character
insertion events if the paste construction throws; no composer: alert.
Neither branch ever throws out of `fillReplyBox`. -/

def liNoBoxMsg : String :=
  "Could not find LinkedIn comment box. Please click in it first."

def xNoBoxMsg : String :=
  "Could not find reply box. Please click in the reply field first."

/-- What the page offers `fillReplyBox`: which queries for an editable
surface succeed, and whether the synthetic-paste construction throws. -/
structure FillEnv where
  /-- `postElement.querySelector("[contenteditable='true'][role='textbox']")` finds a node. -/
  postHasBox : Bool
  /-- the same query document-wide finds a node. -/
  docHasBox : Bool
  /-- the X composer query (tweetTextarea variants or editable textbox) finds a node. -/
  xPrimaryBox : Bool
  /-- number of document-wide editable textboxes (X fallback takes the last). -/
  xComposerCount : Nat
  /-- the DataTransfer/ClipboardEvent construction throws. -/
  pasteThrows : Bool
deriving DecidableEq, Repr

/-- Observable actions of one `fillReplyBox` run. -/
inductive FillEvent where
  /-- direct `innerText` assignment plus input/change dispatch (LinkedIn). -/
  | setText (txt : String)
  /-- `alert(msg)`. -/
  | alertNotice (msg : String)
  /-- synthetic paste event carrying the text (X). -/
  | pasteInto (txt : String)
  /-- per-character `beforeinput` fallback (X). -/
  | charInsert (txt : String)
deriving DecidableEq, Repr

def fillReplyBox (platform : String) (env : FillEnv) (txt : String) : List FillEvent :=
  if platform == "linkedin" then
    if env.postHasBox || env.docHasBox then [.setText txt]
    else [.alertNotice liNoBoxMsg]
  else if platform == "x" then
    if env.xPrimaryBox || env.xComposerCount > 0 then
      if env.pasteThrows then [.charInsert txt] else [.pasteInto txt]
    else [.alertNotice xNoBoxMsg]
  else []

/-! ## Reply Controller (`attachButtonClickHandler`)

The click handler is straight-line: enter the loading state (disable
the button, show the spinner, status "Generating..."), extract the post
text (an empty extraction throws), call `generateReply`, fill the reply
box, show the success styling and re-enable after 2s; any thrown error
instead shows the error styling plus a blocking alert and re-enables
after 3s.  The model records the observed (state, disabled) points of
one activation cycle and the side effects performed. -/

inductive ControlState where
  | idle
  | generating
  | success
  | failed
deriving DecidableEq, Repr

/-- One observation point of a control: visual state plus the
`button.disabled` flag. -/
structure CyclePoint where
  state : ControlState
  disabled : Bool
deriving DecidableEq, Repr

/-- Side effects of one activation cycle, in order. -/
inductive CycleEvent where
  /-- `extractPostText` was invoked and returned this text. -/
  | extractCall (txt : String)
  /-- `generateReply` performed this fetch. -/
  | fetchCall (c : FetchCall)
  /-- `fillReplyBox` was invoked and performed these actions. -/
  | fillCall (evs : List FillEvent)
  /-- the error-path blocking `alert`. -/
  | alertShown (msg : String)
deriving DecidableEq, Repr

/-- The error-path alert text of the click handler. -/
def invalidTokenAlertMsg : String :=
  "Your token is Invalid or Not Present. Please go to the dashboard and click \x27Send Token to Extension\x27."

/-- Trace of one full activation cycle: idle before the click,
generating (disabled) during the pipeline, then the success or error
styling (still disabled), then back to idle (re-enabled) when the 2s /
3s timeout fires. -/
structure CycleRun where
  trace : List CyclePoint
  events : List CycleEvent
deriving DecidableEq, Repr

def successTrace : List CyclePoint :=
  [⟨.idle, false⟩, ⟨.generating, true⟩, ⟨.success, true⟩, ⟨.idle, false⟩]

def errorTrace : List CyclePoint :=
  [⟨.idle, false⟩, ⟨.generating, true⟩, ⟨.failed, true⟩, ⟨.idle, false⟩]

/-- One activation of `attachButtonClickHandler`s click listener.
`post` is the bound post element, `store`/`resp`/`fenv` the
environment the pipeline runs against. -/
def runClickCycle (platform : String) (post : Option Elem)
    (store : StorageAccess) (resp : HttpResponse) (fenv : FillEnv) : CycleRun :=
  let txt := extractPostText platform post
  if jsTrim txt == "" then
    { trace := errorTrace, events := [.extractCall txt, .alertShown invalidTokenAlertMsg] }
  else
    match generateReply store resp txt platform with
    | (.err _, calls) =>
        { trace := errorTrace,
          events := [.extractCall txt] ++ calls.map .fetchCall
                      ++ [.alertShown invalidTokenAlertMsg] }
    | (.ok res, calls) =>
        let fevs := fillReplyBox platform fenv res.reply
        { trace := successTrace,
          events := [.extractCall txt] ++ calls.map .fetchCall ++ [.fillCall fevs] }

/-! ## Scan Engine (`attachButtonsToPosts`)

For the scan the document is a list of candidate elements as the
platform locator set returns them, abstracted to the data the filters
read: a reference identity, the rendered height (`offsetHeight` /
`getBoundingClientRect().height`), the aggregated text length, and how
many of our control containers currently live underneath.  The
processed `WeakSet` is the list of identities added so far. -/

structure Post where
  id : Nat
  height : Nat
  textLen : Nat
  controls : Nat
deriving DecidableEq, Repr

/-- LinkedIn per-candidate step: skip when already processed or a
control container exists underneath or the post is shorter than 100px;
otherwise mark processed first, then attach one control. -/
def liScanStep (processed : List Nat) (p : Post) : List Nat × Post :=
  if processed.contains p.id || p.controls != 0 then (processed, p)
  else if p.height < 100 then (processed, p)
  else (p.id :: processed, { p with controls := p.controls + 1 })

/-- X per-candidate step: skip when already processed or a control
container exists underneath or the tweet text is shorter than 10
characters; otherwise mark processed first, then attach one control. -/
def xScanStep (processed : List Nat) (p : Post) : List Nat × Post :=
  if processed.contains p.id || p.controls != 0 then (processed, p)
  else if p.textLen < 10 then (processed, p)
  else (p.id :: processed, { p with controls := p.controls + 1 })

/-- Run a per-candidate step over the candidate list, threading the
processed set. -/
def scanList (step : List Nat → Post → List Nat × Post) :
    List Nat → List Post → List Nat × List Post
  | processed, [] => (processed, [])
  | processed, p :: ps =>
    let pr := step processed p
    let rest := scanList step pr.1 ps
    (rest.1, pr.2 :: rest.2)

/-- The LinkedIn branch of `attachButtonsToPosts`. -/
def attachButtonsLinkedIn (processed : List Nat) (posts : List Post) :
    List Nat × List Post :=
  scanList liScanStep processed posts

/-- The classifier `isTwitterDetailView()`: URL contains a status segment, or exactly
one `article[data-testid='tweet']` exists whose rendered height exceeds
30% of the viewport height. -/
def isTwitterDetailView (url : String) (tweets : List Post) (viewportH : Nat) : Bool :=
  if strContains url "/status/" || strContains url "/i/web/status/" then true
  else
    match tweets with
    | [t] => decide (3 * viewportH < 10 * t.height)
    | _ => false

/-- The X branch of `attachButtonsToPosts`: feed view returns without
touching the document; detail view scans the tweet candidates. -/
def attachButtonsX (url : String) (viewportH : Nat)
    (processed : List Nat) (tweets : List Post) : List Nat × List Post :=
  if !isTwitterDetailView url tweets viewportH then (processed, tweets)
  else scanList xScanStep processed tweets

/-! ## Navigation watcher (X)

On a URL change (href-attribute mutation) or a popstate event the
script runs `processedPosts.clear?.()` and re-invokes the scan after a
settle delay.  `processedPosts` is a `WeakSet`; a `WeakSet` exposes
only `has`, `add` and `delete`, so the optional member call is applied
to an undefined member and does nothing. -/

/-- The member functions a JS `WeakSet` instance exposes. -/
def weakSetMethods : List String := ["has", "add", "delete"]

/-- The call `processedPosts.clear?.()`: empties the set only if the `clear`
member exists on `WeakSet`; it does not, so the set is kept as is. -/
def weakSetClearCall (s : List Nat) : List Nat :=
  if weakSetMethods.contains "clear" then [] else s

/-- The X navigation handler: attempt to clear the processed set, then
re-run `attachButtonsToPosts` after the settle delay. -/
def onXNavigation (url : String) (viewportH : Nat)
    (processed : List Nat) (tweets : List Post) : List Nat × List Post :=
  attachButtonsX url viewportH (weakSetClearCall processed) tweets

/-! ## Mutation debounce (`init`)

Every MutationObserver callback does `clearTimeout(mutationTimeout)`
and schedules `attachButtonsToPosts` 500ms later.  The model processes
the callback times in order, counting timers that expired before being
cancelled, and lets the final pending timer fire once the burst
settles. -/

structure DebounceState where
  /-- absolute fire time of the pending timer, if one is scheduled. -/
  pending : Option Nat
  /-- scans already fired. -/
  fired : Nat
deriving DecidableEq, Repr

/-- Handle one MutationObserver callback at time `t`: a pending timer
whose fire time has passed already ran; the callback then (re)schedules
the scan for `t + delay`. -/
def debounceEvent (delay : Nat) (st : DebounceState) (t : Nat) : DebounceState :=
  match st.pending with
  | some f =>
      if f ≤ t then { pending := some (t + delay), fired := st.fired + 1 }
      else { pending := some (t + delay), fired := st.fired }
  | none => { pending := some (t + delay), fired := st.fired }

/-- Total number of scan invocations produced by callbacks at the given
times once the burst has settled (the last pending timer fires). -/
def debounceRun (delay : Nat) (ts : List Nat) : Nat :=
  let st := ts.foldl (debounceEvent delay) ⟨none, 0⟩
  st.fired + (match st.pending with | some _ => 1 | none => 0)

/-! ## Helper lemmas -/

/-- A per-candidate step that never drops identities from the processed
set and is the identity on already-processed candidates makes the whole
scan leave already-processed candidates untouched. -/
theorem scanList_preserves_processed
    (step : List Nat → Post → List Nat × Post)
    (hmono : ∀ pr p x, pr.contains x = true → (step pr p).1.contains x = true)
    (hskip : ∀ pr p, pr.contains p.id = true → step pr p = (pr, p)) :
    ∀ (processed : List Nat) (posts : List Post) (i : Nat) (p : Post),
      posts[i]? = some p → processed.contains p.id = true →
      (scanList step processed posts).2[i]? = some p := by
  intro processed posts
  induction posts generalizing processed with
  | nil => intro i p h _; simp at h
  | cons q qs ih =>
    intro i p hget hmem
    cases i with
    | zero =>
      simp only [List.getElem?_cons_zero, Option.some.injEq] at hget
      subst hget
      simp [scanList, hskip processed q hmem]
    | succ n =>
      simp only [List.getElem?_cons_succ] at hget
      have hm2 : (step processed q).1.contains p.id = true :=
        hmono processed q p.id hmem
      simpa [scanList] using ih (step processed q).1 n p hget hm2

theorem liScanStep_mono (pr : List Nat) (p : Post) (x : Nat)
    (h : pr.contains x = true) : (liScanStep pr p).1.contains x = true := by
  unfold liScanStep
  split
  · exact h
  · split
    · exact h
    · simp only [List.contains, List.elem_eq_mem, decide_eq_true_eq] at h ⊢
      exact List.mem_cons_of_mem _ h

theorem liScanStep_skip (pr : List Nat) (p : Post)
    (h : pr.contains p.id = true) : liScanStep pr p = (pr, p) := by
  have hm : p.id ∈ pr := by simpa using h
  simp [liScanStep, hm]

theorem xScanStep_mono (pr : List Nat) (p : Post) (x : Nat)
    (h : pr.contains x = true) : (xScanStep pr p).1.contains x = true := by
  unfold xScanStep
  split
  · exact h
  · split
    · exact h
    · simp only [List.contains, List.elem_eq_mem, decide_eq_true_eq] at h ⊢
      exact List.mem_cons_of_mem _ h

theorem xScanStep_skip (pr : List Nat) (p : Post)
    (h : pr.contains p.id = true) : xScanStep pr p = (pr, p) := by
  have hm : p.id ∈ pr := by simpa using h
  simp [xScanStep, hm]

/-! ## Claims -/

/-- C1: a ContentUnit already in the ProcessedSet never receives a
second Control from a repeated scan: on both platforms the scan skips a
candidate that is in the processed set (and likewise one that already
carries a control container underneath), leaving that candidate, and in
particular its control count, unchanged. -/
theorem c1_processed_units_never_second_control :
    (∀ (processed : List Nat) (posts : List Post) (i : Nat) (p : Post),
        posts[i]? = some p → processed.contains p.id = true →
        (attachButtonsLinkedIn processed posts).2[i]? = some p)
    ∧ (∀ (url : String) (vh : Nat) (processed : List Nat) (tweets : List Post)
          (i : Nat) (p : Post),
        tweets[i]? = some p → processed.contains p.id = true →
        (attachButtonsX url vh processed tweets).2[i]? = some p) := by
  constructor
  · intro processed posts i p hget hmem
    exact scanList_preserves_processed liScanStep liScanStep_mono liScanStep_skip
      processed posts i p hget hmem
  · intro url vh processed tweets i p hget hmem
    unfold attachButtonsX
    split
    · exact hget
    · exact scanList_preserves_processed xScanStep xScanStep_mono xScanStep_skip
        processed tweets i p hget hmem

/-- Witness for C1: a processed LinkedIn post and a processed tweet
(the latter on a detail-view URL) are both left untouched by a repeated
scan. -/
theorem c1_witness :
    (([1] : List Nat).contains 1 = true
      ∧ (attachButtonsLinkedIn [1] [⟨1, 200, 30, 1⟩]).2[0]? = some ⟨1, 200, 30, 1⟩)
    ∧ (([2] : List Nat).contains 2 = true
      ∧ (attachButtonsX "https://x.com/u/status/9" 800 [2] [⟨2, 300, 40, 1⟩]).2[0]?
          = some ⟨2, 300, 40, 1⟩) :=
  ⟨⟨by decide, c1_processed_units_never_second_control.1 [1] [⟨1, 200, 30, 1⟩] 0
      ⟨1, 200, 30, 1⟩ (by decide) (by decide)⟩,
   ⟨by decide, c1_processed_units_never_second_control.2 "https://x.com/u/status/9" 800
      [2] [⟨2, 300, 40, 1⟩] 0 ⟨2, 300, 40, 1⟩ (by decide) (by decide)⟩⟩

/-- C2: every single activation cycle of one control observes exactly
the state sequence Idle, Generating, Success, Idle or Idle, Generating,
Error, Idle, with the button disabled from entering Generating until
the timed return to Idle; in particular Generating is never re-entered
within a cycle without passing through Idle. -/
theorem c2_cycle_state_sequence (platform : String) (post : Option Elem)
    (store : StorageAccess) (resp : HttpResponse) (fenv : FillEnv) :
    (runClickCycle platform post store resp fenv).trace = successTrace
    ∨ (runClickCycle platform post store resp fenv).trace = errorTrace := by
  by_cases hx : (jsTrim (extractPostText platform post) == "") = true
  · exact Or.inr (by simp [runClickCycle, hx])
  · cases hg : generateReply store resp (extractPostText platform post) platform with
    | mk g calls =>
      cases g with
      | ok r => exact Or.inl (by simp [runClickCycle, hx, hg])
      | err e => exact Or.inr (by simp [runClickCycle, hx, hg])

/-- C3: for a non-success HTTP response the generation client
classifies deterministically by status code: 401 throws the
authentication-failed error, 402 the daily-limit error, and every
other non-2xx status the generic API error. -/
theorem c3_status_classification (r : StorageResult) (tok : String)
    (resp : HttpResponse) (text platform : String)
    (htok : r.clerkToken = some tok) (hne : tok ≠ "") :
    (resp.status = 401 →
      (generateReply (.ok r) resp text platform).1 = .err (.authError authFailedMsg))
    ∧ (resp.status = 402 →
      (generateReply (.ok r) resp text platform).1 = .err (.quotaError quotaMsg))
    ∧ (respOk resp.status = false → resp.status ≠ 401 → resp.status ≠ 402 →
      (generateReply (.ok r) resp text platform).1
        = .err (.transportError (apiErrorMsg resp.status resp.statusText))) := by
  refine ⟨?_, ?_, ?_⟩
  · intro h401
    simp [generateReply, htok, hne, respOk, h401]
  · intro h402
    simp [generateReply, htok, hne, respOk, h402]
  · intro hnok h401 h402
    simp [generateReply, htok, hne, hnok, h401, h402]

/-- Witness for C3: a stored token and three concrete statuses 401,
402 and 500 produce the three classified errors. -/
theorem c3_witness :
    (generateReply (.ok ⟨some "tk", none, none⟩) ⟨401, "Unauthorized", "", none⟩ "hi" "x").1
        = .err (.authError authFailedMsg)
    ∧ (generateReply (.ok ⟨some "tk", none, none⟩) ⟨402, "Payment Required", "", none⟩ "hi" "x").1
        = .err (.quotaError quotaMsg)
    ∧ (generateReply (.ok ⟨some "tk", none, none⟩) ⟨500, "Server Error", "", none⟩ "hi" "x").1
        = .err (.transportError (apiErrorMsg 500 "Server Error")) :=
  ⟨(c3_status_classification ⟨some "tk", none, none⟩ "tk"
      ⟨401, "Unauthorized", "", none⟩ "hi" "x" rfl (by decide)).1 rfl,
   (c3_status_classification ⟨some "tk", none, none⟩ "tk"
      ⟨402, "Payment Required", "", none⟩ "hi" "x" rfl (by decide)).2.1 rfl,
   (c3_status_classification ⟨some "tk", none, none⟩ "tk"
      ⟨500, "Server Error", "", none⟩ "hi" "x" rfl (by decide)).2.2 (by decide)
      (by decide) (by decide)⟩

/-- C10: with a truthy stored token, the single request the generation
client sends carries emojiBool = true when no emoji preference is
stored, and the stored boolean verbatim (including false) otherwise. -/
theorem c10_emoji_default_sent (r : StorageResult) (tok : String)
    (resp : HttpResponse) (text platform : String)
    (htok : r.clerkToken = some tok) (hne : tok ≠ "") :
    (generateReply (.ok r) resp text platform).2.map (fun c => c.emojiBool)
      = [match r.enableEmojis with | none => true | some b => b] := by
  unfold generateReply
  simp only [htok]
  rw [if_neg (by simpa using hne)]
  split
  · simp [emojiOf]
  · split
    · simp [emojiOf]
    · split <;> simp [emojiOf]

/-- Witness for C10: stored preference false is sent as false. -/
theorem c10_witness :
    (generateReply (.ok ⟨some "tk", none, some false⟩) ⟨200, "OK", "r", none⟩ "hi" "x").2.map
        (fun c => c.emojiBool) = [false] :=
  c10_emoji_default_sent ⟨some "tk", none, some false⟩ "tk" ⟨200, "OK", "r", none⟩
    "hi" "x" rfl (by decide)

/-- Concrete professional-feed post used for C4: a card whose
`.feed-item-text` child carries the visible text. -/
def c4Post : Elem :=
  .mk "div" "artdeco-card" [] ""
    (.cons (.mk "div" "feed-item-text" [] "Great insight on scaling systems!" .nil) .nil)

/-- C4 counterexample: with the persisted credential absent, the click
handler still invokes the Content Extractor — `extractPostText` runs
(and its result appears as the first cycle event) before the credential
check inside `generateReply`, contradicting the claim that the Content
Extractor is never invoked during such a cycle. -/
theorem c4_counterexample :
    CycleEvent.extractCall "Great insight on scaling systems!" ∈
      (runClickCycle "linkedin" (some c4Post) (.ok ⟨none, none, none⟩)
        ⟨200, "OK", "irrelevant", none⟩ ⟨true, true, false, 0, false⟩).events := by
  decide

/-- C4 as amended: when the persisted credential is absent and the post
text extracts non-empty, the cycle ends in Error with the blocking
notice about an invalid-or-missing token, no network call is attempted
and the Injection Writer is never invoked — but the Content Extractor
is invoked (its call is the first event of the cycle). -/
theorem c4_amended_no_token_cycle (platform : String) (post : Option Elem)
    (r : StorageResult) (resp : HttpResponse) (fenv : FillEnv)
    (htok : r.clerkToken = none)
    (htxt : (jsTrim (extractPostText platform post) == "") = false) :
    (runClickCycle platform post (.ok r) resp fenv).trace = errorTrace
    ∧ (runClickCycle platform post (.ok r) resp fenv).events
        = [.extractCall (extractPostText platform post),
           .alertShown invalidTokenAlertMsg] := by
  have hg : generateReply (.ok r) resp (extractPostText platform post) platform
      = (.err (.authMissing tokenMissingMsg), []) := by
    simp [generateReply, htok]
  constructor <;> simp [runClickCycle, htxt, hg]

/-- Witness for C4 amended: the concrete post and empty storage. -/
theorem c4_witness :
    (jsTrim (extractPostText "linkedin" (some c4Post)) == "") = false
    ∧ (runClickCycle "linkedin" (some c4Post) (.ok ⟨none, none, none⟩)
        ⟨200, "OK", "irrelevant", none⟩ ⟨true, true, false, 0, false⟩).trace = errorTrace
    ∧ (runClickCycle "linkedin" (some c4Post) (.ok ⟨none, none, none⟩)
        ⟨200, "OK", "irrelevant", none⟩ ⟨true, true, false, 0, false⟩).events
        = [.extractCall (extractPostText "linkedin" (some c4Post)),
           .alertShown invalidTokenAlertMsg] :=
  ⟨by decide,
   (c4_amended_no_token_cycle "linkedin" (some c4Post) ⟨none, none, none⟩
      ⟨200, "OK", "irrelevant", none⟩ ⟨true, true, false, 0, false⟩ rfl (by decide)).1,
   (c4_amended_no_token_cycle "linkedin" (some c4Post) ⟨none, none, none⟩
      ⟨200, "OK", "irrelevant", none⟩ ⟨true, true, false, 0, false⟩ rfl (by decide)).2⟩

/-- Concrete professional-feed post used for C5. -/
def c5Post : Elem :=
  .mk "div" "artdeco-card" [] ""
    (.cons (.mk "div" "feed-item-text" [] "Great insight on scaling systems!" .nil) .nil)

/-- C5 counterexample: on the professional feed, when no editable
input surface exists anywhere, `fillReplyBox` only raises the
"could not find" alert and returns normally, so the activation cycle
still ends in Success — contradicting the claim that it ends in
Error. -/
theorem c5_counterexample :
    (runClickCycle "linkedin" (some c5Post) (.ok ⟨some "tk", none, none⟩)
        ⟨200, "OK", "Totally agree.", none⟩ ⟨false, false, false, 0, false⟩).trace
      = successTrace
    ∧ CycleEvent.fillCall [.alertNotice liNoBoxMsg] ∈
      (runClickCycle "linkedin" (some c5Post) (.ok ⟨some "tk", none, none⟩)
        ⟨200, "OK", "Totally agree.", none⟩ ⟨false, false, false, 0, false⟩).events := by
  exact ⟨by decide, by decide⟩

/-- C5 as amended: when the Injection Writer finds no editable input
surface for the professional feed it surfaces the user-visible
"could not find" notice, but the failure is not propagated: the
activation is still treated as successful and the cycle ends in the
Success state. -/
theorem c5_amended_no_input_notice_but_success (post : Option Elem)
    (r : StorageResult) (tok : String) (resp : HttpResponse) (fenv : FillEnv)
    (htok : r.clerkToken = some tok) (hne : (tok == "") = false)
    (hok : respOk resp.status = true)
    (htxt : (jsTrim (extractPostText "linkedin" post) == "") = false)
    (hpost : fenv.postHasBox = false) (hdoc : fenv.docHasBox = false) :
    (runClickCycle "linkedin" post (.ok r) resp fenv).trace = successTrace
    ∧ CycleEvent.fillCall [.alertNotice liNoBoxMsg] ∈
        (runClickCycle "linkedin" post (.ok r) resp fenv).events := by
  have hg : generateReply (.ok r) resp (extractPostText "linkedin" post) "linkedin"
      = (.ok ⟨resp.reply, resp.usage⟩,
         [{ endpoint := linkedinEndpoint, bearer := tok,
            text := extractPostText "linkedin" post,
            tone := toneOf r.replyTone "linkedin",
            emojiBool := emojiOf r.enableEmojis }]) := by
    simp [generateReply, htok, hok, emojiOf]
    simp at hne
    simp [hne]
  have hf : fillReplyBox "linkedin" fenv resp.reply = [.alertNotice liNoBoxMsg] := by
    simp [fillReplyBox, hpost, hdoc]
  constructor
  · simp [runClickCycle, htxt, hg]
  · simp [runClickCycle, htxt, hg, hf]

/-- Witness for C5 amended: concrete post, token, 200 response with a
reply, and a page offering no editable surface. -/
theorem c5_witness :
    (jsTrim (extractPostText "linkedin" (some c5Post)) == "") = false
    ∧ (runClickCycle "linkedin" (some c5Post) (.ok ⟨some "tk", none, none⟩)
        ⟨200, "OK", "Resilience over elegance.", none⟩ ⟨false, false, false, 0, false⟩).trace
        = successTrace
    ∧ CycleEvent.fillCall [.alertNotice liNoBoxMsg] ∈
        (runClickCycle "linkedin" (some c5Post) (.ok ⟨some "tk", none, none⟩)
          ⟨200, "OK", "Resilience over elegance.", none⟩ ⟨false, false, false, 0, false⟩).events :=
  ⟨by decide,
   (c5_amended_no_input_notice_but_success (some c5Post) ⟨some "tk", none, none⟩ "tk"
      ⟨200, "OK", "Resilience over elegance.", none⟩ ⟨false, false, false, 0, false⟩
      rfl (by decide) (by decide) (by decide) rfl rfl).1,
   (c5_amended_no_input_notice_but_success (some c5Post) ⟨some "tk", none, none⟩ "tk"
      ⟨200, "OK", "Resilience over elegance.", none⟩ ⟨false, false, false, 0, false⟩
      rfl (by decide) (by decide) (by decide) rfl rfl).2⟩

/-- C6, evaluating the code at the failing input: a tweet (id 7) that
was processed earlier and whose control container the host page has
since re-rendered away, on a detail-view URL after a navigation event.
The navigation handler calls `processedPosts.clear?.()` on a `WeakSet`,
which has no `clear` member, so the optional call is a no-op: the
processed set still contains 7 and the re-scan skips the tweet, so no
control is attached again — the claim says the set is cleared and the
control re-attached. -/
theorem c6_navigation_does_not_clear_processed :
    weakSetMethods.contains "clear" = false
    ∧ onXNavigation "https://x.com/u/status/12345" 800 [7]
        [{ id := 7, height := 400, textLen := 50, controls := 0 }]
      = ([7], [{ id := 7, height := 400, textLen := 50, controls := 0 }])
    ∧ isTwitterDetailView "https://x.com/u/status/12345"
        [{ id := 7, height := 400, textLen := 50, controls := 0 }] 800 = true := by
  exact ⟨by decide, by decide, by decide⟩

/-- C7: on the microblogging platform, when the detail-view classifier
is false — the address contains neither status-URL pattern, and it is
not the case that exactly one tweet article exists whose rendered
height exceeds 30% of the viewport height — the scan returns without
touching the document: processed set and all candidates are unchanged,
however many eligible tweets exist. -/
theorem c7_feed_view_scan_is_noop (url : String) (vh : Nat)
    (processed : List Nat) (tweets : List Post)
    (h1 : strContains url "/status/" = false)
    (h2 : strContains url "/i/web/status/" = false)
    (h3 : ∀ t, tweets = [t] → 10 * t.height ≤ 3 * vh) :
    attachButtonsX url vh processed tweets = (processed, tweets) := by
  have hdet : isTwitterDetailView url tweets vh = false := by
    unfold isTwitterDetailView
    rw [h1, h2]
    simp only [Bool.or_self, Bool.false_eq_true, if_false]
    match tweets, h3 with
    | [], _ => rfl
    | [t], h3 => simpa using h3 t rfl
    | t1 :: t2 :: ts, _ => rfl
  unfold attachButtonsX
  rw [hdet]
  rfl

/-- Witness for C7: a feed URL with three eligible tweets. -/
theorem c7_witness :
    strContains "https://x.com/home" "/status/" = false
    ∧ strContains "https://x.com/home" "/i/web/status/" = false
    ∧ attachButtonsX "https://x.com/home" 800 []
        [⟨1, 400, 40, 0⟩, ⟨2, 400, 40, 0⟩, ⟨3, 400, 40, 0⟩]
      = ([], [⟨1, 400, 40, 0⟩, ⟨2, 400, 40, 0⟩, ⟨3, 400, 40, 0⟩]) :=
  ⟨by decide, by decide,
   c7_feed_view_scan_is_noop "https://x.com/home" 800 []
     [⟨1, 400, 40, 0⟩, ⟨2, 400, 40, 0⟩, ⟨3, 400, 40, 0⟩]
     (by decide) (by decide) (by intro t h; simp at h)⟩

/-- Concrete professional-feed post used for C8: the unit carries
non-empty visible text of its own, and a decorative child whose class
attribute contains "feed" but whose text is empty. -/
def c8Post : Elem :=
  .mk "div" "" [] "Great post content here"
    (.cons (.mk "div" "feed-badge" [] "" .nil) .nil)

/-- Concrete microblog unit used for C8: a tweet container carrying
non-empty visible text of its own but containing no element matching
the X locators and no descendant `article`. -/
def c8XPost : Elem :=
  .mk "div" "" [] "Tweet text goes here" .nil

/-- C8 counterexample, refuting the claim on both platforms.  On the
professional feed the extractor does not skip a locator whose captured
text is empty: on `c8Post` the first matching element (via the
class-substring locator) has empty text, so `extractPostText` returns
"" although the unit's full aggregated visible text is non-empty — the
claim requires the non-empty fallback text here.  On the microblog the
fallback when every locator fails is not the unit's aggregated text:
on `c8XPost` nothing matches and no descendant article exists, so the
extractor returns "" although the unit's aggregated text is
non-empty. -/
theorem c8_counterexample :
    (extractPostText "linkedin" (some c8Post) = ""
      ∧ (jsTrim (Elem.innerText c8Post) == "") = false)
    ∧ (extractPostText "x" (some c8XPost) = ""
      ∧ (jsTrim (Elem.innerText c8XPost) == "") = false) := by
  exact ⟨⟨by decide, by decide⟩, ⟨by decide, by decide⟩⟩

/-- C8 as amended: the extractor never raises (it is total) and
returns "" for an absent unit; on both platforms it returns the text
of the first element matching that platform's combined locator list —
even when that text is empty; only when no element matches does it
fall back: on the professional feed to the unit's full aggregated
text, on the microblog to the first descendant article's text, else
"". -/
theorem c8_amended_extractor_behavior :
    (∀ platform, extractPostText platform none = "")
    ∧ (∀ post t, querySelectorAny post liExtractSels = some t →
        extractPostText "linkedin" (some post) = t.innerText)
    ∧ (∀ post, querySelectorAny post liExtractSels = none →
        extractPostText "linkedin" (some post) = post.innerText)
    ∧ (∀ post t, querySelectorAny post xExtractSels = some t →
        extractPostText "x" (some post) = t.innerText)
    ∧ (∀ post t, querySelectorAny post xExtractSels = none →
        querySelectorAny post [.articleTag] = some t →
        extractPostText "x" (some post) = t.innerText)
    ∧ (∀ post, querySelectorAny post xExtractSels = none →
        querySelectorAny post [.articleTag] = none →
        extractPostText "x" (some post) = "") := by
  refine ⟨fun platform => rfl, ?_, ?_, ?_, ?_, ?_⟩
  · intro post t h
    simp [extractPostText, h]
  · intro post h
    simp [extractPostText, h]
  · intro post t h
    simp [extractPostText, h]
  · intro post t h1 h2
    simp [extractPostText, h1, h2]
  · intro post h1 h2
    simp [extractPostText, h1, h2]

/-- Concrete microblog unit whose tweet-text locator matches: an
article containing a node with the tweetText test id. -/
def c8XMatch : Elem :=
  .mk "article" "" [] ""
    (.cons (.mk "div" "" [("data-testid", "tweetText")] "Tweet body" .nil) .nil)

/-- Witness for C8 amended: `c8Post` instantiates the professional-feed
first-match conjunct (its matching child has empty text), a bare span
instantiates the professional-feed no-match fallback conjunct, and
`c8XMatch` instantiates the microblog first-match conjunct. -/
theorem c8_witness :
    (querySelectorAny c8Post liExtractSels
        = some (.mk "div" "feed-badge" [] "" .nil)
      ∧ extractPostText "linkedin" (some c8Post)
        = Elem.innerText (.mk "div" "feed-badge" [] "" .nil))
    ∧ (querySelectorAny (Elem.mk "span" "" [] "plain text" .nil) liExtractSels = none
      ∧ extractPostText "linkedin" (some (.mk "span" "" [] "plain text" .nil))
        = Elem.innerText (.mk "span" "" [] "plain text" .nil))
    ∧ (querySelectorAny c8XMatch xExtractSels
        = some (.mk "div" "" [("data-testid", "tweetText")] "Tweet body" .nil)
      ∧ extractPostText "x" (some c8XMatch)
        = Elem.innerText (.mk "div" "" [("data-testid", "tweetText")] "Tweet body" .nil)) :=
  ⟨⟨rfl, c8_amended_extractor_behavior.2.1 c8Post (.mk "div" "feed-badge" [] "" .nil) rfl⟩,
   ⟨rfl, c8_amended_extractor_behavior.2.2.1 (.mk "span" "" [] "plain text" .nil) rfl⟩,
   ⟨rfl, c8_amended_extractor_behavior.2.2.2.1 c8XMatch
      (.mk "div" "" [("data-testid", "tweetText")] "Tweet body" .nil) rfl⟩⟩

/-- Chain step for C9: each mutation notification arrives before the
previously scheduled timer would fire. -/
theorem debounce_pending_chain (delay : Nat) :
    ∀ (ts : List Nat) (t0 : Nat),
      List.Chain' (fun a b => b < a + delay) (t0 :: ts) →
      ∃ tl, List.foldl (debounceEvent delay) ⟨some (t0 + delay), 0⟩ ts
            = ⟨some (tl + delay), 0⟩ := by
  intro ts
  induction ts with
  | nil => intro t0 _; exact ⟨t0, rfl⟩
  | cons t1 rest ih =>
    intro t0 hch
    rw [List.chain'_cons] at hch
    obtain ⟨hlt, hch'⟩ := hch
    have hstep : debounceEvent delay ⟨some (t0 + delay), 0⟩ t1
        = ⟨some (t1 + delay), 0⟩ := by
      simp [debounceEvent, Nat.not_le.mpr hlt]
    rw [List.foldl_cons, hstep]
    exact ih t1 hch'

/-- C9: a burst of N >= 1 mutation notifications, each arriving within
the debounce window of the previous one (so each reschedules the
pending timer), produces exactly one scan invocation once the burst
settles. -/
theorem c9_debounce_burst_single_scan (delay : Nat) (ts : List Nat)
    (hne : ts ≠ [])
    (hch : List.Chain' (fun a b => b < a + delay) ts) :
    debounceRun delay ts = 1 := by
  match ts, hne with
  | t0 :: rest, _ =>
    unfold debounceRun
    rw [List.foldl_cons]
    have h0 : debounceEvent delay ⟨none, 0⟩ t0 = ⟨some (t0 + delay), 0⟩ := rfl
    rw [h0]
    obtain ⟨tl, htl⟩ := debounce_pending_chain delay rest t0 hch
    rw [htl]
    rfl

/-- Witness for C9: three notifications 0, 100, 300 with the 500ms
window collapse into one scan. -/
theorem c9_witness :
    ([0, 100, 300] : List Nat) ≠ []
    ∧ List.Chain' (fun a b => b < a + 500) [0, 100, 300]
    ∧ debounceRun 500 [0, 100, 300] = 1 :=
  ⟨by decide, by norm_num [List.chain'_cons],
   c9_debounce_burst_single_scan 500 [0, 100, 300] (by decide)
     (by norm_num [List.chain'_cons])⟩
